import Mathlib

/-!
Verification of the Kinematic Safety & Motion Planning Engine of the
`armfi` robot-control repository.  All definitions in this file are shallow
embeddings of the JavaScript functions in
`src/robot-control-system/frontend/src/App.vue`; machine floats are modelled
by exact reals, and the `Number.isNaN` guard of `clamp` (which only matters
for non-numeric input) is dropped because inputs here are genuine numbers.
Line numbers in the doc comments refer to `App.vue`.
-/

namespace Armfi

/-- A `JointVector`: the 6 ordered joint values in degrees
(base, shoulder, elbow, wrist-roll, wrist-pitch, tool).  The source stores
this either as an array `[a0..a5]` or as an object `{joint1..joint6}`;
`mapAnglesObjectToArray` / `mapAnglesArrayToObject` (lines 848-868) convert
between the two, so a single record models both faithfully. -/
@[ext]
structure JointVec where
  j1 : ℝ
  j2 : ℝ
  j3 : ℝ
  j4 : ℝ
  j5 : ℝ
  j6 : ℝ

/-- Coupling constant, line 828. -/
def SHOULDER_ELBOW_MIN : ℝ := -110
/-- Coupling constant, line 829. -/
def SHOULDER_ELBOW_MAX : ℝ := 160
/-- Coupling constant, line 830. -/
def WRIST_COUPLED_LIMIT : ℝ := 190
/-- Coupling constant, line 831. -/
def ELBOW_FORWARD_MAX : ℝ := 145

@[simp] lemma SHOULDER_ELBOW_MIN_eq : SHOULDER_ELBOW_MIN = -110 := rfl
@[simp] lemma SHOULDER_ELBOW_MAX_eq : SHOULDER_ELBOW_MAX = 160 := rfl
@[simp] lemma WRIST_COUPLED_LIMIT_eq : WRIST_COUPLED_LIMIT = 190 := rfl
@[simp] lemma ELBOW_FORWARD_MAX_eq : ELBOW_FORWARD_MAX = 145 := rfl

/-- Source `clamp(value, min, max)` (lines 843-846):
`Math.min(Math.max(value, min), max)`. -/
def clamp (value lo hi : ℝ) : ℝ := min (max value lo) hi

/-- Source `Math.sign`: `-1` on negatives, `1` on positives, `0` at zero. -/
noncomputable def msign (x : ℝ) : ℝ :=
  if x < 0 then -1 else if 0 < x then 1 else 0

/-- Step (1) of `enforceJointSafety` (line 871): clamp each joint to its own
`[min, max]` range from `JOINT_LIMITS_DEG` (lines 819-826):
`[-170,170], [-15,135], [0,140], [-90,120], [-95,95], [-180,180]`. -/
def clampPerJoint (raw : JointVec) : JointVec where
  j1 := clamp raw.j1 (-170) 170
  j2 := clamp raw.j2 (-15) 135
  j3 := clamp raw.j3 0 140
  j4 := clamp raw.j4 (-90) 120
  j5 := clamp raw.j5 (-95) 95
  j6 := clamp raw.j6 (-180) 180

/-- Step (2) of `enforceJointSafety` (lines 874-879): if the shoulder+elbow
sum leaves `[SHOULDER_ELBOW_MIN, SHOULDER_ELBOW_MAX]`, move the elbow
(`safe[2]`) to bring the sum to the violated bound, re-clamped to the elbow's
own range `[0, 140]` (`JOINT_LIMITS_DEG[2]`). -/
noncomputable def shoulderElbowFix (v : JointVec) : JointVec :=
  if v.j2 + v.j3 < SHOULDER_ELBOW_MIN then
    { v with j3 := clamp (SHOULDER_ELBOW_MIN - v.j2) 0 140 }
  else if v.j2 + v.j3 > SHOULDER_ELBOW_MAX then
    { v with j3 := clamp (SHOULDER_ELBOW_MAX - v.j2) 0 140 }
  else v

/-- Step (3) of `enforceJointSafety` (lines 882-884): cap the elbow at
`ELBOW_FORWARD_MAX` when it exceeds it. -/
noncomputable def elbowForwardCap (v : JointVec) : JointVec :=
  if v.j3 > ELBOW_FORWARD_MAX then { v with j3 := ELBOW_FORWARD_MAX } else v

/-- Step (4) of `enforceJointSafety` (lines 887-893): if
`|safe[3]| + |safe[4]|` exceeds `WRIST_COUPLED_LIMIT`, reduce each wrist
joint by half the excess toward zero, then re-clamp each to its own range.
In the source `safe[4]` is read before `safe[3]` is overwritten, so the two
updates are simultaneous. -/
noncomputable def wristCoupledFix (v : JointVec) : JointVec :=
  if |v.j4| + |v.j5| > WRIST_COUPLED_LIMIT then
    let excess := |v.j4| + |v.j5| - WRIST_COUPLED_LIMIT
    let reduction := excess / 2
    { v with
      j4 := clamp (v.j4 - msign v.j4 * reduction) (-90) 120
      j5 := clamp (v.j5 - msign v.j5 * reduction) (-95) 95 }
  else v

/-- Source `enforceJointSafety` (lines 870-896): the Joint Safety Enforcer's
`clamp` on whole joint vectors — per-joint clamping followed by the three
coupled-limit corrections, in source order. -/
noncomputable def enforceJointSafety (raw : JointVec) : JointVec :=
  wristCoupledFix (elbowForwardCap (shoulderElbowFix (clampPerJoint raw)))

/-- The conjunction of all six per-joint `[min, max]` bounds from
`JOINT_LIMITS_DEG` (lines 819-826). -/
def withinJointLimits (v : JointVec) : Prop :=
  (-170 ≤ v.j1 ∧ v.j1 ≤ 170) ∧ (-15 ≤ v.j2 ∧ v.j2 ≤ 135) ∧
  (0 ≤ v.j3 ∧ v.j3 ≤ 140) ∧ (-90 ≤ v.j4 ∧ v.j4 ≤ 120) ∧
  (-95 ≤ v.j5 ∧ v.j5 ≤ 95) ∧ (-180 ≤ v.j6 ∧ v.j6 ≤ 180)

section ClampLemmas

lemma clamp_le (x lo hi : ℝ) : clamp x lo hi ≤ hi := min_le_right _ _

lemma le_clamp (x lo hi : ℝ) (h : lo ≤ hi) : lo ≤ clamp x lo hi :=
  le_min (le_max_right _ _) h

lemma clamp_eq_self (x lo hi : ℝ) (h1 : lo ≤ x) (h2 : x ≤ hi) :
    clamp x lo hi = x := by
  unfold clamp
  rw [max_eq_left h1, min_eq_left h2]

lemma clamp_eq_lo (x lo hi : ℝ) (h1 : x ≤ lo) (h2 : lo ≤ hi) :
    clamp x lo hi = lo := by
  unfold clamp
  rw [max_eq_right h1, min_eq_left h2]

lemma clamp_eq_hi (x lo hi : ℝ) (h : hi ≤ x) : clamp x lo hi = hi :=
  min_eq_right (h.trans (le_max_left x lo))

end ClampLemmas

section EnforcerLemmas

/-- After the per-joint clamp of step (1), every joint is inside its own
range. -/
lemma clampPerJoint_within (raw : JointVec) :
    withinJointLimits (clampPerJoint raw) := by
  unfold withinJointLimits clampPerJoint
  refine ⟨⟨?_, ?_⟩, ⟨?_, ?_⟩, ⟨?_, ?_⟩, ⟨?_, ?_⟩, ⟨?_, ?_⟩, ⟨?_, ?_⟩⟩ <;>
    first
      | exact le_clamp _ _ _ (by norm_num)
      | exact clamp_le _ _ _

/-- Step (2) only rewrites the elbow, and keeps it inside `[0, 140]`;
all other joints are untouched. -/
lemma shoulderElbowFix_within (v : JointVec) (hv : withinJointLimits v) :
    withinJointLimits (shoulderElbowFix v) ∧
      (shoulderElbowFix v).j1 = v.j1 ∧ (shoulderElbowFix v).j2 = v.j2 ∧
      (shoulderElbowFix v).j4 = v.j4 ∧ (shoulderElbowFix v).j5 = v.j5 ∧
      (shoulderElbowFix v).j6 = v.j6 := by
  obtain ⟨h1, h2, h3, h4, h5, h6⟩ := hv
  unfold withinJointLimits shoulderElbowFix
  split_ifs
  · exact ⟨⟨h1, h2, ⟨le_clamp _ _ _ (by norm_num), clamp_le _ _ _⟩, h4, h5, h6⟩,
      rfl, rfl, rfl, rfl, rfl⟩
  · exact ⟨⟨h1, h2, ⟨le_clamp _ _ _ (by norm_num), clamp_le _ _ _⟩, h4, h5, h6⟩,
      rfl, rfl, rfl, rfl, rfl⟩
  · exact ⟨⟨h1, h2, h3, h4, h5, h6⟩, rfl, rfl, rfl, rfl, rfl⟩

/-- After step (2) the shoulder+elbow sum is inside
`[SHOULDER_ELBOW_MIN, SHOULDER_ELBOW_MAX]` (the elbow correction, re-clamped
to `[0,140]`, always lands the sum back in range because the shoulder is
already in `[-15, 135]`). -/
lemma shoulderElbowFix_sum (v : JointVec) (hv : withinJointLimits v) :
    SHOULDER_ELBOW_MIN ≤ (shoulderElbowFix v).j2 + (shoulderElbowFix v).j3 ∧
      (shoulderElbowFix v).j2 + (shoulderElbowFix v).j3 ≤ SHOULDER_ELBOW_MAX := by
  obtain ⟨h1, h2, h3, h4, h5, h6⟩ := hv
  unfold shoulderElbowFix
  simp only [SHOULDER_ELBOW_MIN_eq, SHOULDER_ELBOW_MAX_eq] at *
  split_ifs with hlo hhi
  · -- sum < -110 : elbow becomes clamp (-110 - j2) 0 140 = 0
    show (-110 : ℝ) ≤ v.j2 + clamp (-110 - v.j2) 0 140 ∧
      v.j2 + clamp (-110 - v.j2) 0 140 ≤ 160
    rw [clamp_eq_lo _ _ _ (by linarith [h2.1]) (by norm_num)]
    constructor <;> linarith [h2.1, h2.2]
  · -- sum > 160 : elbow becomes clamp (160 - j2) 0 140
    show (-110 : ℝ) ≤ v.j2 + clamp (160 - v.j2) 0 140 ∧
      v.j2 + clamp (160 - v.j2) 0 140 ≤ 160
    rcases le_or_lt (160 - v.j2) 140 with hle | hgt
    · rw [clamp_eq_self _ _ _ (by linarith [h2.2]) hle]
      constructor <;> linarith
    · rw [clamp_eq_hi _ _ _ (le_of_lt hgt)]
      constructor <;> linarith [h2.1, h2.2]
  · push_neg at hlo hhi
    exact ⟨hlo, hhi⟩

/-- Step (3) is the identity whenever the elbow is at most
`ELBOW_FORWARD_MAX`. -/
lemma elbowForwardCap_eq_self (v : JointVec) (h : v.j3 ≤ ELBOW_FORWARD_MAX) :
    elbowForwardCap v = v := by
  unfold elbowForwardCap
  rw [if_neg (by push_neg; exact h)]

lemma msign_of_pos (x : ℝ) (h : 0 < x) : msign x = 1 := by
  unfold msign
  rw [if_neg (by linarith), if_pos h]

lemma msign_of_neg (x : ℝ) (h : x < 0) : msign x = -1 := by
  unfold msign
  rw [if_pos h]

lemma wristCoupledFix_eq_pos (v : JointVec) (h : |v.j4| + |v.j5| > 190) :
    wristCoupledFix v = { v with
      j4 := clamp (v.j4 - msign v.j4 * ((|v.j4| + |v.j5| - 190) / 2)) (-90) 120
      j5 := clamp (v.j5 - msign v.j5 * ((|v.j4| + |v.j5| - 190) / 2)) (-95) 95 } := by
  unfold wristCoupledFix
  simp only [WRIST_COUPLED_LIMIT_eq]
  rw [if_pos h]

lemma wristCoupledFix_eq_neg (v : JointVec) (h : |v.j4| + |v.j5| ≤ 190) :
    wristCoupledFix v = v := by
  unfold wristCoupledFix
  simp only [WRIST_COUPLED_LIMIT_eq]
  rw [if_neg (not_lt.mpr h)]

/-- When step (4) fires on a vector whose wrist joints are inside their own
ranges, the two symmetric reductions stay inside those ranges (so the
re-clamps are identities) and the reduced combined angle is exactly `190`. -/
lemma wrist_reduction_bounds (v : JointVec)
    (h4 : -90 ≤ v.j4 ∧ v.j4 ≤ 120) (h5 : -95 ≤ v.j5 ∧ v.j5 ≤ 95)
    (h : |v.j4| + |v.j5| > 190) :
    (-90 ≤ v.j4 - msign v.j4 * ((|v.j4| + |v.j5| - 190) / 2) ∧
      v.j4 - msign v.j4 * ((|v.j4| + |v.j5| - 190) / 2) ≤ 120) ∧
    (-95 ≤ v.j5 - msign v.j5 * ((|v.j4| + |v.j5| - 190) / 2) ∧
      v.j5 - msign v.j5 * ((|v.j4| + |v.j5| - 190) / 2) ≤ 95) ∧
    |v.j4 - msign v.j4 * ((|v.j4| + |v.j5| - 190) / 2)| +
      |v.j5 - msign v.j5 * ((|v.j4| + |v.j5| - 190) / 2)| = 190 := by
  have habs4 : |v.j4| ≤ 120 := abs_le.mpr ⟨by linarith [h4.1], h4.2⟩
  have habs5 : |v.j5| ≤ 95 := abs_le.mpr h5
  have h4big : 95 < |v.j4| := by linarith
  have h5big : 70 < |v.j5| := by linarith
  have h4pos : 95 < v.j4 := by
    rcases abs_cases v.j4 with ⟨he, _⟩ | ⟨he, _⟩ <;> rw [he] at h4big <;>
      linarith [h4.1]
  have habs4e : |v.j4| = v.j4 := abs_of_pos (by linarith)
  have hs4 : msign v.j4 = 1 := msign_of_pos _ (by linarith)
  rcases lt_trichotomy v.j5 0 with h5neg | h5zero | h5pos
  · have habs5e : |v.j5| = -v.j5 := abs_of_neg h5neg
    have hs5 : msign v.j5 = -1 := msign_of_neg _ h5neg
    rw [habs4e, habs5e] at h
    rw [habs5e] at h5big
    rw [habs4e, habs5e, hs4, hs5]
    refine ⟨⟨by linarith [h5.1, h4.2], by linarith⟩,
      ⟨by linarith [h5.1], by linarith [h4.2]⟩, ?_⟩
    rw [abs_of_pos (by linarith [h5.1]), abs_of_neg (by linarith [h4.2])]
    ring
  · rw [h5zero, abs_zero] at h5big
    linarith
  · have habs5e : |v.j5| = v.j5 := abs_of_pos h5pos
    have hs5 : msign v.j5 = 1 := msign_of_pos _ h5pos
    rw [habs4e, habs5e] at h
    rw [habs5e] at h5big
    rw [habs4e, habs5e, hs4, hs5]
    refine ⟨⟨by linarith [h5.2, h4.2], by linarith⟩,
      ⟨by linarith [h4.2], by linarith⟩, ?_⟩
    rw [abs_of_pos (by linarith [h5.2]), abs_of_pos (by linarith [h4.2])]
    ring

/-- Step (4) never moves the non-wrist joints, keeps the wrist joints in
their own ranges, and leaves the combined wrist angle at most
`WRIST_COUPLED_LIMIT`. -/
lemma wristCoupledFix_spec (v : JointVec)
    (h4 : -90 ≤ v.j4 ∧ v.j4 ≤ 120) (h5 : -95 ≤ v.j5 ∧ v.j5 ≤ 95) :
    ((wristCoupledFix v).j1 = v.j1 ∧ (wristCoupledFix v).j2 = v.j2 ∧
      (wristCoupledFix v).j3 = v.j3 ∧ (wristCoupledFix v).j6 = v.j6) ∧
    (-90 ≤ (wristCoupledFix v).j4 ∧ (wristCoupledFix v).j4 ≤ 120) ∧
    (-95 ≤ (wristCoupledFix v).j5 ∧ (wristCoupledFix v).j5 ≤ 95) ∧
    |(wristCoupledFix v).j4| + |(wristCoupledFix v).j5| ≤ 190 := by
  rcases le_or_lt (|v.j4| + |v.j5|) 190 with hle | hgt
  · rw [wristCoupledFix_eq_neg v hle]
    exact ⟨⟨rfl, rfl, rfl, rfl⟩, h4, h5, hle⟩
  · obtain ⟨hb4, hb5, hsum⟩ := wrist_reduction_bounds v h4 h5 hgt
    rw [wristCoupledFix_eq_pos v hgt]
    dsimp only
    rw [clamp_eq_self _ _ _ hb4.1 hb4.2, clamp_eq_self _ _ _ hb5.1 hb5.2]
    exact ⟨⟨rfl, rfl, rfl, rfl⟩, hb4, hb5, le_of_eq hsum⟩

/-- The enforcer's per-joint-bounds invariant (shared by several theorems):
after `enforceJointSafety` each joint is inside its own range. -/
lemma enforce_within (v : JointVec) :
    withinJointLimits (enforceJointSafety v) := by
  have ha := clampPerJoint_within v
  obtain ⟨hb, _⟩ := shoulderElbowFix_within (clampPerJoint v) ha
  obtain ⟨hb1, hb2, hb3, hb4, hb5, hb6⟩ := hb
  have hcap : elbowForwardCap (shoulderElbowFix (clampPerJoint v)) =
      shoulderElbowFix (clampPerJoint v) :=
    elbowForwardCap_eq_self _ (by simp only [ELBOW_FORWARD_MAX_eq]; linarith [hb3.2])
  obtain ⟨⟨e1, e2, e3, e6⟩, hw4, hw5, _⟩ :=
    wristCoupledFix_spec (shoulderElbowFix (clampPerJoint v)) hb4 hb5
  unfold enforceJointSafety
  rw [hcap]
  exact ⟨e1 ▸ hb1, e2 ▸ hb2, e3 ▸ hb3, hw4, hw5, e6 ▸ hb6⟩

/-- The elbow-forward cap (step 3) is always a no-op inside the pipeline:
after steps (1)-(2) the elbow is at most `140 < 145`. -/
lemma enforce_cap_noop (v : JointVec) :
    elbowForwardCap (shoulderElbowFix (clampPerJoint v)) =
      shoulderElbowFix (clampPerJoint v) := by
  obtain ⟨hb, _⟩ := shoulderElbowFix_within (clampPerJoint v) (clampPerJoint_within v)
  exact elbowForwardCap_eq_self _
    (by simp only [ELBOW_FORWARD_MAX_eq]; linarith [hb.2.2.1.2])

/-- After the full pipeline the shoulder+elbow sum is inside
`[SHOULDER_ELBOW_MIN, SHOULDER_ELBOW_MAX]`. -/
lemma enforce_sum (v : JointVec) :
    SHOULDER_ELBOW_MIN ≤ (enforceJointSafety v).j2 + (enforceJointSafety v).j3 ∧
      (enforceJointSafety v).j2 + (enforceJointSafety v).j3 ≤ SHOULDER_ELBOW_MAX := by
  have ha := clampPerJoint_within v
  obtain ⟨hb, _⟩ := shoulderElbowFix_within (clampPerJoint v) ha
  have hsum := shoulderElbowFix_sum (clampPerJoint v) ha
  obtain ⟨⟨_, e2, e3, _⟩, _, _, _⟩ :=
    wristCoupledFix_spec (shoulderElbowFix (clampPerJoint v)) hb.2.2.2.1 hb.2.2.2.2.1
  unfold enforceJointSafety
  rw [enforce_cap_noop v, e2, e3]
  exact hsum

/-- After the full pipeline the combined wrist angle is at most
`WRIST_COUPLED_LIMIT`. -/
lemma enforce_wrist_sum (v : JointVec) :
    |(enforceJointSafety v).j4| + |(enforceJointSafety v).j5| ≤ WRIST_COUPLED_LIMIT := by
  obtain ⟨hb, _⟩ := shoulderElbowFix_within (clampPerJoint v) (clampPerJoint_within v)
  obtain ⟨_, _, _, habs⟩ :=
    wristCoupledFix_spec (shoulderElbowFix (clampPerJoint v)) hb.2.2.2.1 hb.2.2.2.2.1
  unfold enforceJointSafety
  rw [enforce_cap_noop v]
  simpa using habs

end EnforcerLemmas

/-- C1: for every real-valued 6-vector input `v` (degrees), every component
of the output of the Joint Safety Enforcer's clamp (`enforceJointSafety`)
lies within that joint's `[min, max]` bound from `JOINT_LIMITS_DEG`. -/
theorem enforceJointSafety_within_limits (v : JointVec) :
    withinJointLimits (enforceJointSafety v) :=
  enforce_within v

/-- C2: the Joint Safety Enforcer's clamp is idempotent — for every
real-valued 6-vector `v`, `enforceJointSafety (enforceJointSafety v)` equals
`enforceJointSafety v`. -/
theorem enforceJointSafety_idempotent (v : JointVec) :
    enforceJointSafety (enforceJointSafety v) = enforceJointSafety v := by
  have hw := enforce_within (v := v)
  obtain ⟨g1, g2, g3, g4, g5, g6⟩ := hw
  have hsum := enforce_sum (v := v)
  have hws := enforce_wrist_sum (v := v)
  simp only [SHOULDER_ELBOW_MIN_eq, SHOULDER_ELBOW_MAX_eq,
    WRIST_COUPLED_LIMIT_eq] at hsum hws
  have e1 : clampPerJoint (enforceJointSafety v) = enforceJointSafety v := by
    unfold clampPerJoint
    ext <;> dsimp only <;>
      [exact clamp_eq_self _ _ _ g1.1 g1.2;
       exact clamp_eq_self _ _ _ g2.1 g2.2;
       exact clamp_eq_self _ _ _ g3.1 g3.2;
       exact clamp_eq_self _ _ _ g4.1 g4.2;
       exact clamp_eq_self _ _ _ g5.1 g5.2;
       exact clamp_eq_self _ _ _ g6.1 g6.2]
  have e2 : shoulderElbowFix (enforceJointSafety v) = enforceJointSafety v := by
    unfold shoulderElbowFix
    simp only [SHOULDER_ELBOW_MIN_eq, SHOULDER_ELBOW_MAX_eq]
    rw [if_neg (not_lt.mpr hsum.1), if_neg (not_lt.mpr hsum.2)]
  have e3 : elbowForwardCap (enforceJointSafety v) = enforceJointSafety v :=
    elbowForwardCap_eq_self _ (by simp only [ELBOW_FORWARD_MAX_eq]; linarith [g3.2])
  have e4 : wristCoupledFix (enforceJointSafety v) = enforceJointSafety v :=
    wristCoupledFix_eq_neg _ hws
  show wristCoupledFix (elbowForwardCap (shoulderElbowFix
    (clampPerJoint (enforceJointSafety v)))) = enforceJointSafety v
  rw [e1, e2, e3, e4]

/-- C10: for every input the clamp's output satisfies all three coupling
rules exactly (not merely best-effort): the shoulder+elbow sum lies in
`[-110, 160]`, the elbow never exceeds `ELBOW_FORWARD_MAX = 145` (indeed the
forward-cap branch of step 3 is never taken, because the elbow is already at
most `140`), and the combined wrist angle never exceeds
`WRIST_COUPLED_LIMIT = 190` (and when step 4 fires, its post-reduction
re-clamps never change the reduced values). -/
theorem enforceJointSafety_coupling_exact (v : JointVec) :
    (SHOULDER_ELBOW_MIN ≤ (enforceJointSafety v).j2 + (enforceJointSafety v).j3 ∧
      (enforceJointSafety v).j2 + (enforceJointSafety v).j3 ≤ SHOULDER_ELBOW_MAX) ∧
    (enforceJointSafety v).j3 ≤ ELBOW_FORWARD_MAX ∧
    |(enforceJointSafety v).j4| + |(enforceJointSafety v).j5| ≤ WRIST_COUPLED_LIMIT ∧
    elbowForwardCap (shoulderElbowFix (clampPerJoint v)) =
      shoulderElbowFix (clampPerJoint v) ∧
    (|(elbowForwardCap (shoulderElbowFix (clampPerJoint v))).j4| +
        |(elbowForwardCap (shoulderElbowFix (clampPerJoint v))).j5| >
        WRIST_COUPLED_LIMIT →
      clamp ((elbowForwardCap (shoulderElbowFix (clampPerJoint v))).j4 -
          msign (elbowForwardCap (shoulderElbowFix (clampPerJoint v))).j4 *
          ((|(elbowForwardCap (shoulderElbowFix (clampPerJoint v))).j4| +
            |(elbowForwardCap (shoulderElbowFix (clampPerJoint v))).j5| -
            WRIST_COUPLED_LIMIT) / 2)) (-90) 120 =
        (elbowForwardCap (shoulderElbowFix (clampPerJoint v))).j4 -
          msign (elbowForwardCap (shoulderElbowFix (clampPerJoint v))).j4 *
          ((|(elbowForwardCap (shoulderElbowFix (clampPerJoint v))).j4| +
            |(elbowForwardCap (shoulderElbowFix (clampPerJoint v))).j5| -
            WRIST_COUPLED_LIMIT) / 2) ∧
      clamp ((elbowForwardCap (shoulderElbowFix (clampPerJoint v))).j5 -
          msign (elbowForwardCap (shoulderElbowFix (clampPerJoint v))).j5 *
          ((|(elbowForwardCap (shoulderElbowFix (clampPerJoint v))).j4| +
            |(elbowForwardCap (shoulderElbowFix (clampPerJoint v))).j5| -
            WRIST_COUPLED_LIMIT) / 2)) (-95) 95 =
        (elbowForwardCap (shoulderElbowFix (clampPerJoint v))).j5 -
          msign (elbowForwardCap (shoulderElbowFix (clampPerJoint v))).j5 *
          ((|(elbowForwardCap (shoulderElbowFix (clampPerJoint v))).j4| +
            |(elbowForwardCap (shoulderElbowFix (clampPerJoint v))).j5| -
            WRIST_COUPLED_LIMIT) / 2)) := by
  obtain ⟨hb, _⟩ := shoulderElbowFix_within (clampPerJoint v) (clampPerJoint_within v)
  have hmid4 : -90 ≤ (elbowForwardCap (shoulderElbowFix (clampPerJoint v))).j4 ∧
      (elbowForwardCap (shoulderElbowFix (clampPerJoint v))).j4 ≤ 120 := by
    rw [enforce_cap_noop v]; exact hb.2.2.2.1
  have hmid5 : -95 ≤ (elbowForwardCap (shoulderElbowFix (clampPerJoint v))).j5 ∧
      (elbowForwardCap (shoulderElbowFix (clampPerJoint v))).j5 ≤ 95 := by
    rw [enforce_cap_noop v]; exact hb.2.2.2.2.1
  refine ⟨enforce_sum v, ?_, enforce_wrist_sum v, enforce_cap_noop v, ?_⟩
  · have := (enforce_within v).2.2.1.2
    simp only [ELBOW_FORWARD_MAX_eq]
    linarith
  · intro hfire
    simp only [WRIST_COUPLED_LIMIT_eq] at hfire ⊢
    obtain ⟨hb4, hb5, _⟩ :=
      wrist_reduction_bounds _ hmid4 hmid5 hfire
    exact ⟨clamp_eq_self _ _ _ hb4.1 hb4.2, clamp_eq_self _ _ _ hb5.1 hb5.2⟩

/-- Witness for C10 at a concrete input that fires the wrist-reduction
branch: `(0, 0, 0, 200, 200, 0)` clamps to wrist joints `(120, 95)`, whose
combined angle `215` exceeds `190`, and the two post-reduction re-clamps
are identities there. -/
theorem enforceJointSafety_coupling_exact_witness :
    |(elbowForwardCap (shoulderElbowFix (clampPerJoint
        (JointVec.mk 0 0 0 200 200 0)))).j4| +
      |(elbowForwardCap (shoulderElbowFix (clampPerJoint
        (JointVec.mk 0 0 0 200 200 0)))).j5| > WRIST_COUPLED_LIMIT ∧
    (SHOULDER_ELBOW_MIN ≤ (enforceJointSafety (JointVec.mk 0 0 0 200 200 0)).j2 +
        (enforceJointSafety (JointVec.mk 0 0 0 200 200 0)).j3 ∧
      (enforceJointSafety (JointVec.mk 0 0 0 200 200 0)).j2 +
        (enforceJointSafety (JointVec.mk 0 0 0 200 200 0)).j3 ≤ SHOULDER_ELBOW_MAX) ∧
    |(enforceJointSafety (JointVec.mk 0 0 0 200 200 0)).j4| +
      |(enforceJointSafety (JointVec.mk 0 0 0 200 200 0)).j5| ≤ WRIST_COUPLED_LIMIT ∧
    clamp ((elbowForwardCap (shoulderElbowFix (clampPerJoint
          (JointVec.mk 0 0 0 200 200 0)))).j4 -
        msign (elbowForwardCap (shoulderElbowFix (clampPerJoint
          (JointVec.mk 0 0 0 200 200 0)))).j4 *
        ((|(elbowForwardCap (shoulderElbowFix (clampPerJoint
            (JointVec.mk 0 0 0 200 200 0)))).j4| +
          |(elbowForwardCap (shoulderElbowFix (clampPerJoint
            (JointVec.mk 0 0 0 200 200 0)))).j5| -
          WRIST_COUPLED_LIMIT) / 2)) (-90) 120 =
      (elbowForwardCap (shoulderElbowFix (clampPerJoint
          (JointVec.mk 0 0 0 200 200 0)))).j4 -
        msign (elbowForwardCap (shoulderElbowFix (clampPerJoint
          (JointVec.mk 0 0 0 200 200 0)))).j4 *
        ((|(elbowForwardCap (shoulderElbowFix (clampPerJoint
            (JointVec.mk 0 0 0 200 200 0)))).j4| +
          |(elbowForwardCap (shoulderElbowFix (clampPerJoint
            (JointVec.mk 0 0 0 200 200 0)))).j5| -
          WRIST_COUPLED_LIMIT) / 2) ∧
    clamp ((elbowForwardCap (shoulderElbowFix (clampPerJoint
          (JointVec.mk 0 0 0 200 200 0)))).j5 -
        msign (elbowForwardCap (shoulderElbowFix (clampPerJoint
          (JointVec.mk 0 0 0 200 200 0)))).j5 *
        ((|(elbowForwardCap (shoulderElbowFix (clampPerJoint
            (JointVec.mk 0 0 0 200 200 0)))).j4| +
          |(elbowForwardCap (shoulderElbowFix (clampPerJoint
            (JointVec.mk 0 0 0 200 200 0)))).j5| -
          WRIST_COUPLED_LIMIT) / 2)) (-95) 95 =
      (elbowForwardCap (shoulderElbowFix (clampPerJoint
          (JointVec.mk 0 0 0 200 200 0)))).j5 -
        msign (elbowForwardCap (shoulderElbowFix (clampPerJoint
          (JointVec.mk 0 0 0 200 200 0)))).j5 *
        ((|(elbowForwardCap (shoulderElbowFix (clampPerJoint
            (JointVec.mk 0 0 0 200 200 0)))).j4| +
          |(elbowForwardCap (shoulderElbowFix (clampPerJoint
            (JointVec.mk 0 0 0 200 200 0)))).j5| -
          WRIST_COUPLED_LIMIT) / 2) := by
  have hmid : elbowForwardCap (shoulderElbowFix (clampPerJoint
      (JointVec.mk 0 0 0 200 200 0))) = JointVec.mk 0 0 0 120 95 0 := by
    have h1 : clampPerJoint (JointVec.mk 0 0 0 200 200 0) =
        JointVec.mk 0 0 0 120 95 0 := by
      unfold clampPerJoint
      ext <;> dsimp only <;> unfold clamp <;> norm_num
    rw [h1]
    have h2 : shoulderElbowFix (JointVec.mk 0 0 0 120 95 0) =
        JointVec.mk 0 0 0 120 95 0 := by
      unfold shoulderElbowFix
      rw [if_neg (by simp only [SHOULDER_ELBOW_MIN_eq]; norm_num),
        if_neg (by simp only [SHOULDER_ELBOW_MAX_eq]; norm_num)]
    rw [h2]
    exact elbowForwardCap_eq_self _
      (by simp only [ELBOW_FORWARD_MAX_eq]; norm_num)
  have h := enforceJointSafety_coupling_exact (JointVec.mk 0 0 0 200 200 0)
  have hfire : |(elbowForwardCap (shoulderElbowFix (clampPerJoint
        (JointVec.mk 0 0 0 200 200 0)))).j4| +
      |(elbowForwardCap (shoulderElbowFix (clampPerJoint
        (JointVec.mk 0 0 0 200 200 0)))).j5| > WRIST_COUPLED_LIMIT := by
    rw [hmid]
    simp only [WRIST_COUPLED_LIMIT_eq]
    norm_num [abs_of_nonneg]
  exact ⟨hfire, h.1, h.2.2.1, (h.2.2.2.2 hfire).1, (h.2.2.2.2 hfire).2⟩

/-- A `CartesianPoint` `{x, y, z}` in meters, robot base frame. -/
@[ext]
structure Point3 where
  x : ℝ
  y : ℝ
  z : ℝ

instance : Inhabited Point3 := ⟨⟨0, 0, 0⟩⟩

/-- Source `sampleLinePath(start, end, samples)` (lines 1548-1559): the loop
`for (i = 0; i <= samples; i++)` pushes the point at parameter
`t = i / samples` linearly interpolated between `start` and `end`. -/
noncomputable def sampleLinePath (start endp : Point3) (samples : ℕ) : List Point3 :=
  (List.range (samples + 1)).map fun (i : ℕ) =>
    let t : ℝ := (i : ℝ) / (samples : ℝ)
    { x := start.x + (endp.x - start.x) * t
      y := start.y + (endp.y - start.y) * t
      z := start.z + (endp.z - start.z) * t }

lemma sampleLinePath_length (s e : Point3) (N : ℕ) :
    (sampleLinePath s e N).length = N + 1 := by
  unfold sampleLinePath
  rw [List.length_map, List.length_range]

lemma sampleLinePath_getD (s e : Point3) (N i : ℕ) (h : i < N + 1) :
    (sampleLinePath s e N).getD i default =
      { x := s.x + (e.x - s.x) * ((i : ℝ) / (N : ℝ))
        y := s.y + (e.y - s.y) * ((i : ℝ) / (N : ℝ))
        z := s.z + (e.z - s.z) * ((i : ℝ) / (N : ℝ)) } := by
  rw [List.getD_eq_getElem _ _ (by rw [sampleLinePath_length]; exact h)]
  simp only [sampleLinePath, List.getElem_map, List.getElem_range]

/-- C4: for every pair of Cartesian points and every sample count `N ≥ 1`,
the planner's line sampling produces exactly `N + 1` points, the point at
index `i` sitting at parameter `t = i / N`, with point 0 equal to the start
and point `N` equal to the goal. -/
theorem sampleLinePath_spec (s e : Point3) (N : ℕ) (hN : 1 ≤ N) :
    (sampleLinePath s e N).length = N + 1 ∧
    (sampleLinePath s e N).getD 0 default = s ∧
    (sampleLinePath s e N).getD N default = e ∧
    ∀ i : ℕ, i ≤ N → (sampleLinePath s e N).getD i default =
      { x := s.x + (e.x - s.x) * ((i : ℝ) / (N : ℝ))
        y := s.y + (e.y - s.y) * ((i : ℝ) / (N : ℝ))
        z := s.z + (e.z - s.z) * ((i : ℝ) / (N : ℝ)) } := by
  have hcast : (N : ℝ) ≠ 0 := Nat.cast_ne_zero.mpr (by omega)
  refine ⟨sampleLinePath_length s e N, ?_, ?_, fun i hi =>
    sampleLinePath_getD s e N i (by omega)⟩
  · rw [sampleLinePath_getD s e N 0 (by omega)]
    ext <;> simp
  · rw [sampleLinePath_getD s e N N (by omega)]
    rw [div_self hcast]
    ext <;> dsimp <;> ring

/-- Witness for C4 at `N = 3` from the origin to `(3, 6, 9)`. -/
theorem sampleLinePath_spec_witness :
    (1 ≤ 3) ∧
    (sampleLinePath ⟨0, 0, 0⟩ ⟨3, 6, 9⟩ 3).length = 4 ∧
    (sampleLinePath ⟨0, 0, 0⟩ ⟨3, 6, 9⟩ 3).getD 0 default = ⟨0, 0, 0⟩ ∧
    (sampleLinePath ⟨0, 0, 0⟩ ⟨3, 6, 9⟩ 3).getD 3 default = ⟨3, 6, 9⟩ :=
  ⟨by norm_num,
    (sampleLinePath_spec ⟨0, 0, 0⟩ ⟨3, 6, 9⟩ 3 (by norm_num)).1,
    (sampleLinePath_spec ⟨0, 0, 0⟩ ⟨3, 6, 9⟩ 3 (by norm_num)).2.1,
    (sampleLinePath_spec ⟨0, 0, 0⟩ ⟨3, 6, 9⟩ 3 (by norm_num)).2.2.1⟩

/-! ## Approximate forward kinematics and the collision validator -/

/-- Source `DEG2RAD` (line 816). -/
noncomputable def DEG2RAD : ℝ := Real.pi / 180

/-- The fixed link lengths `LINK_LENGTHS_M` (lines 832-839). -/
structure LinkLengths where
  baseHeight : ℝ
  shoulder : ℝ
  upperArm : ℝ
  forearm : ℝ
  wrist : ℝ
  flange : ℝ

def LINK_LENGTHS_M : LinkLengths :=
  { baseHeight := 0.044, shoulder := 0.0215, upperArm := 0.0827
    forearm := 0.0450, wrist := 0.0392, flange := 0.0540 }

/-- Source `BASE_RADIUS_M` (line 840). -/
def BASE_RADIUS_M : ℝ := 0.09
/-- Source `BASE_CLEARANCE_M` (line 841). -/
def BASE_CLEARANCE_M : ℝ := 0.02

/-- One entry of `computeForwardPositions`' result: a labelled key point
with `{x, y, z, radial}` (lines 947-953). -/
structure FKPoint where
  label : String
  x : ℝ
  y : ℝ
  z : ℝ
  radial : ℝ

instance : Inhabited FKPoint := ⟨⟨"", 0, 0, 0, 0⟩⟩

/-- One push of the loop body of `computeForwardPositions`
(lines 943-953): `x = radial*cos(yaw)`, `y = radial*sin(yaw)`,
`r = sqrt(x*x + y*y)`, `z` is the accumulated height. -/
noncomputable def fkPoint (label : String) (radial height baseYaw : ℝ) : FKPoint :=
  { label := label
    x := radial * Real.cos baseYaw
    y := radial * Real.sin baseYaw
    z := height
    radial := Real.sqrt (radial * Real.cos baseYaw * (radial * Real.cos baseYaw) +
      radial * Real.sin baseYaw * (radial * Real.sin baseYaw)) }

/-- Source `computeForwardPositions(angles)` (lines 914-957): the three-iteration
loop over segment lengths `[shoulder+upperArm, forearm, wrist+flange]` and
cumulative pitches `[shoulder, shoulder+elbow, shoulder+elbow+wrist]`,
accumulating `radial += sin(pitch)*len` and `height += cos(pitch)*len`
starting from `height = baseHeight`, is unrolled. -/
noncomputable def computeForwardPositions (a : JointVec) : List FKPoint :=
  let baseYaw := a.j1 * DEG2RAD
  let shoulder := a.j2 * DEG2RAD
  let elbow := a.j3 * DEG2RAD
  let wrist := a.j4 * DEG2RAD
  let len0 := LINK_LENGTHS_M.shoulder + LINK_LENGTHS_M.upperArm
  let len1 := LINK_LENGTHS_M.forearm
  let len2 := LINK_LENGTHS_M.wrist + LINK_LENGTHS_M.flange
  let radial1 := Real.sin shoulder * len0
  let height1 := LINK_LENGTHS_M.baseHeight + Real.cos shoulder * len0
  let radial2 := radial1 + Real.sin (shoulder + elbow) * len1
  let height2 := height1 + Real.cos (shoulder + elbow) * len1
  let radial3 := radial2 + Real.sin (shoulder + elbow + wrist) * len2
  let height3 := height2 + Real.cos (shoulder + elbow + wrist) * len2
  [fkPoint ("肘部") radial1 height1 baseYaw,
   fkPoint ("腕部") radial2 height2 baseYaw,
   fkPoint ("末端") radial3 height3 baseYaw]

/-- The ground-penetration condition of `geometryCollisionCheck`
(line 965): the logged violation fires for a key point exactly when
`point.z < -0.005`. -/
def groundViolation (a : JointVec) : Prop :=
  ∃ p ∈ computeForwardPositions a, p.z < -0.005

/-- The pedestal-collision condition of `geometryCollisionCheck`
(line 970): `point.z < baseHeight + clearance` and
`point.radial < BASE_RADIUS_M`. -/
def pedestalViolation (a : JointVec) : Prop :=
  ∃ p ∈ computeForwardPositions a,
    p.z < LINK_LENGTHS_M.baseHeight + BASE_CLEARANCE_M ∧ p.radial < BASE_RADIUS_M

/-- Source `geometryCollisionCheck(angles)` (lines 959-977): `risk` ends up `true`
exactly when some key point fired the ground or the pedestal condition
(the `forEach` only ever sets `risk = true`). -/
def geometryCollisionCheck (a : JointVec) : Prop :=
  groundViolation a ∨ pedestalViolation a

/-- The per-joint range conditions of `quickCollisionCheck`
(lines 982-989), one per entry of `JOINT_LIMITS_DEG`. -/
def jointRangeViolation (a : JointVec) : Prop :=
  (a.j1 < -170 ∨ a.j1 > 170) ∨ (a.j2 < -15 ∨ a.j2 > 135) ∨
  (a.j3 < 0 ∨ a.j3 > 140) ∨ (a.j4 < -90 ∨ a.j4 > 120) ∨
  (a.j5 < -95 ∨ a.j5 > 95) ∨ (a.j6 < -180 ∨ a.j6 > 180)

/-- The `sumShoulderElbow < SHOULDER_ELBOW_MIN` condition (line 992). -/
def shoulderElbowSumLowViolation (a : JointVec) : Prop :=
  a.j2 + a.j3 < SHOULDER_ELBOW_MIN

/-- The `sumShoulderElbow > SHOULDER_ELBOW_MAX` condition (line 996). -/
def shoulderElbowSumHighViolation (a : JointVec) : Prop :=
  a.j2 + a.j3 > SHOULDER_ELBOW_MAX

/-- The `angles.joint3 > ELBOW_FORWARD_MAX` condition (line 1001). -/
def elbowForwardViolation (a : JointVec) : Prop :=
  a.j3 > ELBOW_FORWARD_MAX

/-- The `|joint4| + |joint5| > WRIST_COUPLED_LIMIT` condition (line 1007). -/
def wristCombinedViolation (a : JointVec) : Prop :=
  |a.j4| + |a.j5| > WRIST_COUPLED_LIMIT

/-- Source `quickCollisionCheck(angles)` (lines 979-1017): `risk` ends up `true`
exactly when one of the individual conditions fired (all checks are run,
none short-circuits any other, and `risk` is only ever set to `true`). -/
def quickCollisionCheck (a : JointVec) : Prop :=
  jointRangeViolation a ∨
  shoulderElbowSumLowViolation a ∨ shoulderElbowSumHighViolation a ∨
  elbowForwardViolation a ∨ wristCombinedViolation a ∨
  geometryCollisionCheck a

/-- C5: the Collision Validator reports a shoulder+elbow-sum violation iff
`joint2 + joint3` lies outside `[SHOULDER_ELBOW_MIN, SHOULDER_ELBOW_MAX]`,
and those bounds are `-110` and `160`. -/
theorem quickCollisionCheck_se_violation_iff (a : JointVec) :
    ((shoulderElbowSumLowViolation a ∨ shoulderElbowSumHighViolation a) ↔
      a.j2 + a.j3 ∉ Set.Icc SHOULDER_ELBOW_MIN SHOULDER_ELBOW_MAX) ∧
    SHOULDER_ELBOW_MIN = -110 ∧ SHOULDER_ELBOW_MAX = 160 := by
  refine ⟨?_, rfl, rfl⟩
  unfold shoulderElbowSumLowViolation shoulderElbowSumHighViolation
  simp only [Set.mem_Icc, not_and_or, not_le]

/-- Witness for C5: shoulder `-30°` and elbow `200°` sum to `170°`, outside
`[-110, 160]`, so the sum violation is reported. -/
theorem quickCollisionCheck_se_violation_iff_witness :
    shoulderElbowSumLowViolation (JointVec.mk 0 (-30) 200 0 0 0) ∨
      shoulderElbowSumHighViolation (JointVec.mk 0 (-30) 200 0 0 0) :=
  ((quickCollisionCheck_se_violation_iff (JointVec.mk 0 (-30) 200 0 0 0)).1).mpr
    (by simp only [Set.mem_Icc, SHOULDER_ELBOW_MIN_eq, SHOULDER_ELBOW_MAX_eq]; norm_num)

section GroundThreshold

lemma exists_z_lt_of_getD (l : List FKPoint) (i : ℕ) (hi : i < l.length)
    (c : ℝ) (h : (l.getD i default).z < c) : ∃ p ∈ l, p.z < c :=
  ⟨l.getD i default, by rw [List.getD_eq_getElem _ _ hi]; exact List.getElem_mem _, h⟩

lemma not_exists_z_lt_of_map (l : List FKPoint) (zs : List ℝ)
    (h : l.map FKPoint.z = zs) (c : ℝ) (hall : ∀ z ∈ zs, c ≤ z) :
    ¬ ∃ p ∈ l, p.z < c := by
  rintro ⟨p, hp, hpz⟩
  have : p.z ∈ zs := h ▸ List.mem_map_of_mem FKPoint.z hp
  exact absurd hpz (not_lt.mpr (hall _ this))

lemma cos_90deg : Real.cos ((90 : ℝ) * (Real.pi / 180)) = 0 := by
  rw [show (90 : ℝ) * (Real.pi / 180) = Real.pi / 2 by ring, Real.cos_pi_div_two]

lemma cos_180deg :
    Real.cos ((90 : ℝ) * (Real.pi / 180) + (90 : ℝ) * (Real.pi / 180)) = -1 := by
  rw [show (90 : ℝ) * (Real.pi / 180) + (90 : ℝ) * (Real.pi / 180) = Real.pi by ring,
    Real.cos_pi]

lemma cos_270deg :
    Real.cos ((90 : ℝ) * (Real.pi / 180) + (90 : ℝ) * (Real.pi / 180) +
      (90 : ℝ) * (Real.pi / 180)) = 0 := by
  rw [show (90 : ℝ) * (Real.pi / 180) + (90 : ℝ) * (Real.pi / 180) +
      (90 : ℝ) * (Real.pi / 180) = Real.pi + Real.pi / 2 by ring,
    Real.cos_add, Real.cos_pi, Real.sin_pi, Real.cos_pi_div_two]
  ring

/-- The key-point heights at `(0°, 90°, 90°, 90°, 0°, 0°)`: the elbow sits
at `z = 0.044`, the wrist and end-effector at `z = -0.001`. -/
lemma fk_z_at_909090 :
    (computeForwardPositions (JointVec.mk 0 90 90 90 0 0)).map FKPoint.z =
      [0.044, -0.001, -0.001] := by
  simp only [computeForwardPositions, fkPoint, DEG2RAD, List.map_cons, List.map_nil]
  rw [cos_90deg, cos_180deg, cos_270deg]
  unfold LINK_LENGTHS_M
  norm_num

/-- C6 counterexample: at joint angles `(0°, 90°, 90°, 90°, 0°, 0°)` the
wrist key point has height `z = -0.001 < 0`, yet no ground-penetration
violation is reported, because `geometryCollisionCheck` only fires the
ground condition when `z < -0.005`. -/
theorem ground_violation_counterexample :
    (∃ p ∈ computeForwardPositions (JointVec.mk 0 90 90 90 0 0), p.z < 0) ∧
    ¬ groundViolation (JointVec.mk 0 90 90 90 0 0) := by
  constructor
  · refine exists_z_lt_of_getD _ 1 ?_ 0 ?_
    · simp only [computeForwardPositions, List.length_cons, List.length_nil]
      norm_num
    · have h : ((computeForwardPositions (JointVec.mk 0 90 90 90 0 0)).getD 1
          default).z = -0.001 := by
        simp only [computeForwardPositions, List.getD_cons_succ, List.getD_cons_zero,
          fkPoint, DEG2RAD]
        rw [cos_90deg, cos_180deg]
        unfold LINK_LENGTHS_M
        norm_num
      rw [h]
      norm_num
  · refine not_exists_z_lt_of_map _ _ fk_z_at_909090 _ ?_
    intro z hz
    simp only [List.mem_cons, List.not_mem_nil, or_false] at hz
    rcases hz with h | h | h <;> rw [h] <;> norm_num

/-- C6 amended: the Collision Validator reports a ground-penetration
violation (and hence an overall collision risk) whenever one of the 3
forward-kinematics key points has `z < -0.005` — the source's ground
threshold is `-0.005`, not `0`. -/
theorem ground_violation_threshold (a : JointVec)
    (h : ∃ p ∈ computeForwardPositions a, p.z < -0.005) :
    groundViolation a ∧ geometryCollisionCheck a ∧ quickCollisionCheck a :=
  ⟨h, Or.inl h, Or.inr (Or.inr (Or.inr (Or.inr (Or.inr (Or.inl h)))))⟩

lemma cos_120deg : Real.cos ((120 : ℝ) * (Real.pi / 180)) = -(1 / 2) := by
  rw [show (120 : ℝ) * (Real.pi / 180) = Real.pi - Real.pi / 3 by ring,
    Real.cos_pi_sub, Real.cos_pi_div_three]

/-- Witness for the amended C6: at `(0°, 120°, 30°, 0°, 0°, 0°)` the elbow
key point has `z = -0.0081 < -0.005`, so the ground violation is reported
and propagates to the overall verdict. -/
theorem ground_violation_threshold_witness :
    groundViolation (JointVec.mk 0 120 30 0 0 0) ∧
    geometryCollisionCheck (JointVec.mk 0 120 30 0 0 0) ∧
    quickCollisionCheck (JointVec.mk 0 120 30 0 0 0) :=
  ground_violation_threshold (JointVec.mk 0 120 30 0 0 0)
    (exists_z_lt_of_getD _ 0
      (by simp only [computeForwardPositions, List.length_cons, List.length_nil]
          norm_num)
      (-0.005)
      (by
        have h : ((computeForwardPositions (JointVec.mk 0 120 30 0 0 0)).getD 0
            default).z = -0.0081 := by
          simp only [computeForwardPositions, List.getD_cons_zero, fkPoint, DEG2RAD]
          rw [cos_120deg]
          unfold LINK_LENGTHS_M
          norm_num
        rw [h]
        norm_num))

end GroundThreshold

/-! ## Safe-angle gate shared by the manual, planner and player paths -/

/-- Degree-to-radian conversion of a whole joint vector, as done by
`getSafeAngles` (line 910) and `executeJointPath` (lines 1604-1626). -/
noncomputable def radOf (v : JointVec) : JointVec :=
  ⟨v.j1 * DEG2RAD, v.j2 * DEG2RAD, v.j3 * DEG2RAD,
   v.j4 * DEG2RAD, v.j5 * DEG2RAD, v.j6 * DEG2RAD⟩

/-- The warning logged by `getSafeAngles` on rejection (line 904):
`'[!] ' + source + ' 超出安全范围,已取消执行'`. -/
def safetyWarnLog (src : String) : String :=
  "[!] " ++ src ++ " 超出安全范围,已取消执行"

open Classical in
/-- Source `getSafeAngles(angleObj, source)` (lines 898-912): run the raw angles
through `enforceJointSafety`, reject via `quickCollisionCheck` (returning
`null`, the caller logs `safetyWarnLog`), otherwise return the safe angles
in degrees and radians. -/
noncomputable def getSafeAngles (angleObj : JointVec) :
    Option (JointVec × JointVec) :=
  if quickCollisionCheck (enforceJointSafety angleObj) then none
  else some (enforceJointSafety angleObj, radOf (enforceJointSafety angleObj))

/-! ## Cartesian path planner (moveToTarget, lines 1637-1692) -/

/-- A command handed to the hardware transport by `sendCommand`. -/
inductive Dispatch where
  | moveToAngles (anglesRad : JointVec)
  | moveToPosition (pos : Point3)

/-- Source `callIK(position)` (lines 1564-1582): the backend IK service is the
external oracle; on `success` its angles are passed through
`enforceJointSafety` and returned, otherwise an error with the service's
message is thrown (and rethrown by the `catch`). -/
noncomputable def callIK (oracle : Point3 → Except String JointVec)
    (p : Point3) : Except String JointVec :=
  match oracle p with
  | .ok angles => .ok (enforceJointSafety angles)
  | .error msg => .error msg

/-- Outcome of the per-sample loop of `moveToTarget` (lines 1653-1669). -/
inductive PlanOutcome where
  | ok (jointPath : List JointVec)
  | ikFail (i : ℕ) (msg : String)
  | collision (i : ℕ)

open Classical in
/-- The `for (let i = 0; i < path3D.length; i++)` loop of `moveToTarget`
(lines 1653-1669): call the IK oracle on the sample; a thrown IK error
returns immediately; a collision-check hit sets `collisionDetected` and
breaks (the caller then returns); otherwise the safe angles are pushed and
the loop continues with the next sample. -/
noncomputable def planLoop (oracle : Point3 → Except String JointVec) :
    List Point3 → ℕ → PlanOutcome
  | [], _ => .ok []
  | p :: rest, i =>
    match callIK oracle p with
    | .error msg => .ikFail i msg
    | .ok safeAngles =>
      if quickCollisionCheck safeAngles then .collision i
      else
        match planLoop oracle rest (i + 1) with
        | .ok path => .ok (safeAngles :: path)
        | out => out

/-- Line 1639: `'规划路径: 目标(${x.toFixed(3)}, ${y.toFixed(3)}, ' +
z.toFixed(3) + ')'` — a single-quoted string, so the `x` and `y` fragments
are literal text and only `z` is concatenated (through the number formatter
`fmt`, which models `toFixed(3)`). -/
def planStartLog (fmt : ℝ → String) (z : ℝ) : String :=
  "规划路径: 目标(${x.toFixed(3)}, ${y.toFixed(3)}, " ++ fmt z ++ ")"

/-- Line 1648: `'生成' + path3D.length + '个路径点'`. -/
def pathGeneratedLog (n : ℕ) : String := "生成" ++ toString n ++ "个路径点"

/-- Line 1659: `'[!] 路径点' + i + '存在碰撞风险,取消移动'` — proper string
concatenation, so the failing sample index `i` appears in the message. -/
def collisionLog (i : ℕ) : String :=
  "[!] 路径点" ++ toString i ++ "存在碰撞风险,取消移动"

/-- Line 1666: `'路径点${i}IKfailed: ' + e.message` — a SINGLE-quoted
string, not a template literal, so `${i}` is literal text: the failing
sample index is not interpolated into the message. -/
def ikFailLog (msg : String) : String := "路径点${i}IKfailed: " ++ msg

/-- Line 1675. -/
def ikDoneLog : String := "IK计算完成,开始执行..."

/-- Line 1681. -/
def arrivedLog : String := "[OK] 到达目标位置"

/-- The mutable state touched by `moveToTarget`: the commanded angles
(`targetAngles`, radians), the goal marker (`targetEndEffectorPos`), the
hardware dispatches issued via `sendCommand`, and the log. -/
structure PlannerState where
  targetAngles : JointVec
  targetEndEffectorPos : Option Point3
  dispatches : List Dispatch
  log : List String

/-- The completed effect of `executeJointPath(jointPath, totalDuration)`
(lines 1587-1632) on the commanded angles: an empty path returns at once;
otherwise the animation's final frame writes the last waypoint, converted
to radians, into `targetAngles`.  (The intermediate per-frame writes are
time-domain behavior below the granularity of the planner claims.) -/
noncomputable def executeJointPathFinal (jointPath : List JointVec)
    (cur : JointVec) : JointVec :=
  match jointPath.getLast? with
  | none => cur
  | some lastP => radOf lastP

/-- Source `moveToTarget(x, y, z, samples)` (lines 1637-1692): sample the straight
line from the current end-effector position to the goal, run the IK +
collision loop, and on success set the goal marker, execute the joint path
and dispatch the goal position when connected.  On an IK failure or a
collision hit the function returns after logging, leaving the state
untouched. -/
noncomputable def moveToTarget (fmt : ℝ → String)
    (oracle : Point3 → Except String JointVec) (connected : Bool)
    (current : Point3) (x y z : ℝ) (samples : ℕ)
    (s : PlannerState) : PlannerState :=
  let s0 := { s with log := s.log ++ [planStartLog fmt z] }
  let path3D := sampleLinePath current ⟨x, y, z⟩ samples
  let s1 := { s0 with log := s0.log ++ [pathGeneratedLog path3D.length] }
  match planLoop oracle path3D 0 with
  | .ikFail _ msg => { s1 with log := s1.log ++ [ikFailLog msg] }
  | .collision i => { s1 with log := s1.log ++ [collisionLog i] }
  | .ok jointPath =>
    let s2 := { s1 with
                log := s1.log ++ [ikDoneLog]
                targetEndEffectorPos := some ⟨x, y, z⟩ }
    let s3 := { s2 with
                targetAngles := executeJointPathFinal jointPath s2.targetAngles }
    let s4 := { s3 with log := s3.log ++ [arrivedLog] }
    if connected then
      { s4 with dispatches := s4.dispatches ++ [.moveToPosition ⟨x, y, z⟩] }
    else s4

/-- An IK oracle that cannot solve the origin but solves everything else:
used to show the abort happens at sample 0 even though every later sample
is solvable. -/
noncomputable def oracleFailsAtOrigin : Point3 → Except String JointVec :=
  fun p => if p.x = 0 then .error ("unreachable") else .ok (JointVec.mk 0 0 0 0 0 0)

/-- The planner state before the failing `moveToTarget` call. -/
def plannerState0 : PlannerState :=
  { targetAngles := ⟨0, 0, 0, 0, 0, 0⟩, targetEndEffectorPos := none
    dispatches := [], log := [] }

/-- C3 (code bug): evaluating `moveToTarget` at a run whose very first
sample is unreachable.  The call aborts — the commanded angles, the goal
marker and the dispatch list are untouched and no later sample is consulted
— but the failure message appended to the log is the literal string
`路径点${i}IKfailed: unreachable`: line 1666 uses `${i}` inside a
single-quoted string, so the failing sample's index never appears in the
surfaced failure, contrary to the claim (the collision branch, line 1659,
does concatenate the index). -/
theorem moveToTarget_ik_failure_eval :
    moveToTarget (fun _ => ("0.500")) oracleFailsAtOrigin true ⟨0, 0, 0⟩
        0.5 0 0.5 1 plannerState0 =
      { targetAngles := ⟨0, 0, 0, 0, 0, 0⟩, targetEndEffectorPos := none
        dispatches := []
        log := [planStartLog (fun _ => ("0.500")) 0.5, pathGeneratedLog 2,
          ikFailLog ("unreachable")] } ∧
    ikFailLog ("unreachable") = ("路径点${i}IKfailed: unreachable") ∧
    ((ikFailLog ("unreachable")).toList.contains ('0')) = false ∧
    ((collisionLog 0).toList.contains ('0')) = true := by
  have hpath : sampleLinePath ⟨0, 0, 0⟩ ⟨0.5, 0, 0.5⟩ 1 =
      [⟨0, 0, 0⟩, ⟨0.5, 0, 0.5⟩] := by
    unfold sampleLinePath
    rw [show List.range (1 + 1) = [0, 1] by rfl]
    simp only [List.map_cons, List.map_nil]
    norm_num
  have hloop : planLoop oracleFailsAtOrigin [⟨0, 0, 0⟩, ⟨0.5, 0, 0.5⟩] 0 =
      .ikFail 0 ("unreachable") := by
    unfold planLoop callIK oracleFailsAtOrigin
    rw [if_pos (show (Point3.mk 0 0 0).x = 0 from rfl)]
  refine ⟨?_, rfl, by decide, by decide⟩
  simp only [moveToTarget, plannerState0]
  rw [hpath, hloop]
  rfl

/-! ## Action sequence player (playActionSequence, lines 1020-1109) -/

/-- One keyframe of an action sequence (lines 739-802): a 6-angle array in
degrees, a duration in milliseconds, and an optional gripper state. -/
structure Keyframe where
  angles : JointVec
  duration : ℕ
  gripper : Option Bool

/-- A named action sequence of the library. -/
structure ActionSeq where
  name : String
  keyframes : List Keyframe

/-- Source `actionLibrary.wave` (lines 740-749). -/
noncomputable def waveSeq : ActionSeq :=
  { name := "挥手"
    keyframes :=
      [⟨⟨0, -30, 45, 0, -15, 0⟩, 1000, none⟩,
       ⟨⟨15, -30, 45, 0, -15, 30⟩, 500, none⟩,
       ⟨⟨-15, -30, 45, 0, -15, -30⟩, 500, none⟩,
       ⟨⟨15, -30, 45, 0, -15, 30⟩, 500, none⟩,
       ⟨⟨0, 0, 0, 0, 0, 0⟩, 1000, none⟩] }

/-- Source `actionLibrary.grab_demo` (lines 750-762). -/
noncomputable def grabDemoSeq : ActionSeq :=
  { name := "抓取Demo"
    keyframes :=
      [⟨⟨0, -20, 30, 0, -10, 0⟩, 1000, none⟩,
       ⟨⟨0, -45, 60, 0, -15, 0⟩, 800, none⟩,
       ⟨⟨0, -45, 60, 0, -15, 0⟩, 300, some false⟩,
       ⟨⟨0, -20, 30, 0, -10, 0⟩, 800, none⟩,
       ⟨⟨45, -20, 30, 0, -10, 45⟩, 1000, none⟩,
       ⟨⟨45, -45, 60, 0, -15, 45⟩, 800, none⟩,
       ⟨⟨45, -45, 60, 0, -15, 45⟩, 300, some true⟩,
       ⟨⟨0, 0, 0, 0, 0, 0⟩, 1200, none⟩] }

/-- Source `actionLibrary.dance` (lines 763-773). -/
noncomputable def danceSeq : ActionSeq :=
  { name := "小舞"
    keyframes :=
      [⟨⟨0, -30, 30, 0, 0, 0⟩, 500, none⟩,
       ⟨⟨30, -30, 30, 30, 0, 30⟩, 400, none⟩,
       ⟨⟨-30, -30, 30, -30, 0, -30⟩, 400, none⟩,
       ⟨⟨30, -30, 30, 30, 0, 30⟩, 400, none⟩,
       ⟨⟨0, 0, 60, 0, -60, 0⟩, 600, none⟩,
       ⟨⟨0, 0, 0, 0, 0, 0⟩, 800, none⟩] }

/-- Source `actionLibrary.spin` (lines 774-781). -/
noncomputable def spinSeq : ActionSeq :=
  { name := "原地转圈"
    keyframes :=
      [⟨⟨179, 0, 0, 0, 0, 0⟩, 2000, none⟩,
       ⟨⟨-179, 0, 0, 0, 0, 0⟩, 4000, none⟩,
       ⟨⟨0, 0, 0, 0, 0, 0⟩, 2000, none⟩] }

/-- Source `actionLibrary.nod` (lines 782-790). -/
noncomputable def nodSeq : ActionSeq :=
  { name := "点头"
    keyframes :=
      [⟨⟨0, 0, 0, 0, 30, 0⟩, 300, none⟩,
       ⟨⟨0, 0, 0, 0, -20, 0⟩, 300, none⟩,
       ⟨⟨0, 0, 0, 0, 30, 0⟩, 300, none⟩,
       ⟨⟨0, 0, 0, 0, 0, 0⟩, 300, none⟩] }

/-- Source `actionLibrary.greet` (lines 791-801). -/
noncomputable def greetSeq : ActionSeq :=
  { name := "打招呼"
    keyframes :=
      [⟨⟨0, -40, 50, 0, -10, 0⟩, 800, none⟩,
       ⟨⟨0, -40, 50, 0, -10, 30⟩, 300, none⟩,
       ⟨⟨0, -40, 50, 0, -10, -30⟩, 300, none⟩,
       ⟨⟨0, -40, 50, 0, -10, 30⟩, 300, none⟩,
       ⟨⟨0, -40, 50, 0, -10, 0⟩, 300, none⟩,
       ⟨⟨0, 0, 0, 0, 0, 0⟩, 1000, none⟩] }

/-- Source `actionLibrary` (lines 739-802) as a name-to-sequence lookup
(`actionLibrary[sequenceOrName]`, line 1023: an unknown key yields
`undefined`). -/
noncomputable def actionLibrary : String → Option ActionSeq := fun name =>
  if name = "wave" then some waveSeq
  else if name = "grab_demo" then some grabDemoSeq
  else if name = "dance" then some danceSeq
  else if name = "spin" then some spinSeq
  else if name = "nod" then some nodSeq
  else if name = "greet" then some greetSeq
  else none

/-- The mutable state touched by the player: its two flags
(`isPlayingSequence`, `currentSequence`, lines 735-736), the commanded
angles (`targetAngles`, radians), the gripper flag and the log. -/
structure PlayerState where
  isPlayingSequence : Bool
  currentSequence : Option String
  targetAngles : JointVec
  gripperOpen : Bool
  log : List String

/-- How a call to `playActionSequence` terminates: normally, or by the
uncaught `ReferenceError` of line 1039. -/
inductive PlayOutcome where
  | normal
  | refError

/-- Line 1059: `addLog('夹爪: ' + keyframe.gripper ? '开启' : '关闭', ...)`
— in JavaScript `+` binds tighter than `?:`, so the condition is the
always-truthy string `'夹爪: ' + keyframe.gripper` and the logged text is
always `'开启'`. -/
def gripperLog (_g : Bool) : String := "开启"

/-- The keyframe loop of `playActionSequence`'s `try` block
(lines 1043-1098), including the `finally`: clamp+validate each keyframe
through `getSafeAngles`; on rejection log, clear both flags and stop
(leaving `targetAngles` at the last successfully reached pose); on success
optionally set the gripper, then run the eased interpolation whose final
frame (`progress = 1`, `easeInOutCubic 1 = 1`) writes exactly the
keyframe's radian angles into `targetAngles`; after the last keyframe log
completion and clear both flags.  NOTE: in the source this loop is
unreachable — line 1039 throws before the `try` block is entered (see
`playActionSequence`). -/
noncomputable def playKeyframes (seqName : String) :
    List Keyframe → ℕ → PlayerState → PlayerState
  | [], _, s =>
    { s with log := s.log ++ ["[OK] 动作完成: " ++ seqName]
             isPlayingSequence := false
             currentSequence := none }
  | kf :: rest, i, s =>
    match getSafeAngles kf.angles with
    | none =>
      { s with log := s.log ++ [safetyWarnLog ("动作关键帧 #" ++ toString (i + 1))]
               isPlayingSequence := false
               currentSequence := none }
    | some (_, rad) =>
      let s1 :=
        match kf.gripper with
        | some g => { s with gripperOpen := g, log := s.log ++ [gripperLog g] }
        | none => s
      playKeyframes seqName rest (i + 1) { s1 with targetAngles := rad }

/-- Source `playActionSequence(sequenceOrName)` (lines 1020-1099), called with a
sequence name: an unknown name logs and returns; a call while
`isPlayingSequence` is set logs `'动作序列进行中...'` and returns
(lines 1033-1036); otherwise line 1038 sets the playing flag and line 1039
(`currentSequence.value = sequenceName`) reads the identifier
`sequenceName`, which is declared nowhere in the module — in the strict
mode of an ES module this throws an uncaught `ReferenceError` before the
`try`/`finally` is entered, so `currentSequence` is not assigned, no
keyframe of `playKeyframes` ever runs, and the playing flag is never
cleared. -/
noncomputable def playActionSequence (lib : String → Option ActionSeq)
    (name : String) (s : PlayerState) : PlayerState × PlayOutcome :=
  match lib name with
  | none => ({ s with log := s.log ++ ["Unknown action: " ++ name] }, .normal)
  | some _seq =>
    if s.isPlayingSequence then
      ({ s with log := s.log ++ ["动作序列进行中..."] }, .normal)
    else
      ({ s with isPlayingSequence := true }, .refError)

/-- The player state before the failing `play` call: idle, home pose. -/
noncomputable def playerState0 : PlayerState :=
  { isPlayingSequence := false, currentSequence := none
    targetAngles := ⟨0, 0, 0, 0, 0, 0⟩, gripperOpen := true, log := [] }

/-- C7 (code bug): evaluating `playActionSequence` on an idle player with
the known sequence name `wave`.  Instead of processing the five keyframes
and clearing the playing flag at the end, the call terminates with the
uncaught `ReferenceError` of line 1039 (`sequenceName` is not defined):
no keyframe runs (`targetAngles` is untouched, no log beyond the initial
state), `currentSequence` is never set, and `isPlayingSequence` is left
`true` forever. -/
theorem playActionSequence_refError_eval :
    playActionSequence actionLibrary ("wave") playerState0 =
      ({ isPlayingSequence := true, currentSequence := none
         targetAngles := ⟨0, 0, 0, 0, 0, 0⟩, gripperOpen := true, log := [] },
       PlayOutcome.refError) ∧
    actionLibrary ("wave") = some waveSeq ∧
    (waveSeq.keyframes.length = 5) := by
  refine ⟨?_, ?_, rfl⟩
  · unfold playActionSequence actionLibrary playerState0
    rw [if_pos rfl]
    rfl
  · unfold actionLibrary
    rw [if_pos rfl]

/-- C8: calling `play` while a sequence is already playing is a no-op — for
any library, any known sequence name and any state whose playing flag is
set, the call leaves every field except the log unchanged (the active
sequence's keyframes, the commanded angles and the gripper are unaffected
and no keyframe of the new request runs), appends exactly the one
`'动作序列进行中...'` log entry, and terminates normally (no error). -/
theorem playActionSequence_busy_noop (lib : String → Option ActionSeq)
    (name : String) (seq : ActionSeq) (s : PlayerState)
    (hknown : lib name = some seq) (hbusy : s.isPlayingSequence = true) :
    playActionSequence lib name s =
      ({ s with log := s.log ++ ["动作序列进行中..."] }, PlayOutcome.normal) := by
  unfold playActionSequence
  rw [hknown, hbusy]
  rfl

/-- Witness for C8: a busy player asked to play `nod` is left untouched
except for the busy log line. -/
theorem playActionSequence_busy_noop_witness :
    playActionSequence actionLibrary ("nod")
      { isPlayingSequence := true, currentSequence := some ("wave")
        targetAngles := ⟨1, 1, 1, 1, 1, 1⟩, gripperOpen := false
        log := [("previous")] } =
    ({ isPlayingSequence := true, currentSequence := some ("wave")
       targetAngles := ⟨1, 1, 1, 1, 1, 1⟩, gripperOpen := false
       log := [("previous"), ("动作序列进行中...")] }, PlayOutcome.normal) :=
  playActionSequence_busy_noop actionLibrary ("nod") nodSeq
    { isPlayingSequence := true, currentSequence := some ("wave")
      targetAngles := ⟨1, 1, 1, 1, 1, 1⟩, gripperOpen := false
      log := [("previous")] }
    (by unfold actionLibrary; rfl) rfl

/-! ## Safety of yaw-only poses (used to drive the executor theorems) -/

lemma not_exists_z_lt_and_of_map (l : List FKPoint) (zs : List ℝ)
    (h : l.map FKPoint.z = zs) (c : ℝ) (Q : FKPoint → Prop)
    (hall : ∀ z ∈ zs, c ≤ z) : ¬ ∃ p ∈ l, p.z < c ∧ Q p := by
  rintro ⟨p, hp, hpz, _⟩
  have : p.z ∈ zs := h ▸ List.mem_map_of_mem FKPoint.z hp
  exact absurd hpz (not_lt.mpr (hall _ this))

/-- The key-point heights of a pose that only rotates the base: all pitches
are zero, so the heights are the accumulated link lengths. -/
lemma fk_z_yaw_only (a : ℝ) :
    (computeForwardPositions (JointVec.mk a 0 0 0 0 0)).map FKPoint.z =
      [0.1482, 0.1932, 0.2864] := by
  simp only [computeForwardPositions, fkPoint, DEG2RAD, List.map_cons,
    List.map_nil, zero_mul, add_zero, zero_add, Real.cos_zero]
  unfold LINK_LENGTHS_M
  norm_num

/-- A yaw-only pose inside the base joint's range passes the whole
Collision Validator. -/
lemma quick_safe_yaw_only (a : ℝ) (h1 : -170 ≤ a) (h2 : a ≤ 170) :
    ¬ quickCollisionCheck (JointVec.mk a 0 0 0 0 0) := by
  have hz := fk_z_yaw_only a
  rintro (hr | hr | hr | hr | hr | hr)
  · unfold jointRangeViolation at hr
    norm_num at hr
    rcases hr with h | h <;> linarith
  · unfold shoulderElbowSumLowViolation at hr
    simp only [SHOULDER_ELBOW_MIN_eq] at hr
    norm_num at hr
  · unfold shoulderElbowSumHighViolation at hr
    simp only [SHOULDER_ELBOW_MAX_eq] at hr
    norm_num at hr
  · unfold elbowForwardViolation at hr
    simp only [ELBOW_FORWARD_MAX_eq] at hr
    norm_num at hr
  · unfold wristCombinedViolation at hr
    simp only [WRIST_COUPLED_LIMIT_eq] at hr
    norm_num at hr
  · rcases hr with hg | hp
    · refine not_exists_z_lt_of_map _ _ hz _ ?_ hg
      intro z hzm
      simp only [List.mem_cons, List.not_mem_nil, or_false] at hzm
      rcases hzm with h | h | h <;> rw [h] <;> norm_num
    · refine not_exists_z_lt_and_of_map _ _ hz
        (LINK_LENGTHS_M.baseHeight + BASE_CLEARANCE_M)
        (fun p => p.radial < BASE_RADIUS_M) ?_ hp
      intro z hzm
      simp only [List.mem_cons, List.not_mem_nil, or_false] at hzm
      unfold LINK_LENGTHS_M BASE_CLEARANCE_M
      rcases hzm with h | h | h <;> rw [h] <;> norm_num

/-- A yaw-only pose inside the base joint's range is a fixed point of the
Joint Safety Enforcer. -/
lemma enforce_yaw_only (a : ℝ) (h1 : -170 ≤ a) (h2 : a ≤ 170) :
    enforceJointSafety (JointVec.mk a 0 0 0 0 0) = JointVec.mk a 0 0 0 0 0 := by
  unfold enforceJointSafety
  have e1 : clampPerJoint (JointVec.mk a 0 0 0 0 0) = JointVec.mk a 0 0 0 0 0 := by
    unfold clampPerJoint
    ext <;> dsimp only <;>
      [exact clamp_eq_self _ _ _ h1 h2;
       exact clamp_eq_self _ _ _ (by norm_num) (by norm_num);
       exact clamp_eq_self _ _ _ (by norm_num) (by norm_num);
       exact clamp_eq_self _ _ _ (by norm_num) (by norm_num);
       exact clamp_eq_self _ _ _ (by norm_num) (by norm_num);
       exact clamp_eq_self _ _ _ (by norm_num) (by norm_num)]
  rw [e1]
  have e2 : shoulderElbowFix (JointVec.mk a 0 0 0 0 0) = JointVec.mk a 0 0 0 0 0 := by
    unfold shoulderElbowFix
    rw [if_neg (by simp only [SHOULDER_ELBOW_MIN_eq]; norm_num),
      if_neg (by simp only [SHOULDER_ELBOW_MAX_eq]; norm_num)]
  rw [e2]
  rw [elbowForwardCap_eq_self _ (by simp only [ELBOW_FORWARD_MAX_eq]; norm_num)]
  exact wristCoupledFix_eq_neg _ (by norm_num [abs_zero])

/-- A yaw-only pose passes `getSafeAngles` untouched. -/
lemma getSafeAngles_yaw_only (a : ℝ) (h1 : -170 ≤ a) (h2 : a ≤ 170) :
    getSafeAngles (JointVec.mk a 0 0 0 0 0) =
      some (JointVec.mk a 0 0 0 0 0, radOf (JointVec.mk a 0 0 0 0 0)) := by
  unfold getSafeAngles
  rw [enforce_yaw_only a h1 h2, if_neg (quick_safe_yaw_only a h1 h2)]

/-! ## Trajectory executor (updateRobotJoints, lines 1501-1539) -/

/-- One in-flight single-segment trajectory: the closure state captured by
`updateRobotJoints`' `interpolate` callback — `startAngles`
(`[...targetAngles.value]`, line 1508), the goal in radians (`safe.rad`,
line 1505), the capture time (`Date.now()`, line 1509) and the duration. -/
structure Traj where
  startAngles : JointVec
  goalAngles : JointVec
  startTime : ℝ
  duration : ℝ

/-- The executor's shared mutable state: the commanded angles
(`targetAngles`), the animation callbacks currently registered through
`requestAnimationFrame` (in registration order), the hardware dispatches
issued by `sendCommand`, and the log. -/
structure ExecState where
  targetAngles : JointVec
  active : List Traj
  dispatches : List Dispatch
  log : List String

/-- Source `easeInOutCubic` (lines 805-809), also inlined at lines 1516-1518:
`t < 0.5 ? 4t³ : 1 - (-2t+2)³/2`. -/
noncomputable def easeInOutCubic (t : ℝ) : ℝ :=
  if t < 0.5 then 4 * t * t * t else 1 - (-2 * t + 2) ^ 3 / 2

/-- Per-joint linear interpolation at eased progress (lines 1521-1523). -/
noncomputable def lerpJoints (start goal : JointVec) (e : ℝ) : JointVec :=
  ⟨start.j1 + (goal.j1 - start.j1) * e, start.j2 + (goal.j2 - start.j2) * e,
   start.j3 + (goal.j3 - start.j3) * e, start.j4 + (goal.j4 - start.j4) * e,
   start.j5 + (goal.j5 - start.j5) * e, start.j6 + (goal.j6 - start.j6) * e⟩

/-- One run of the `interpolate` callback (lines 1511-1536) at wall time
`now`: compute clamped progress, ease it, write the interpolated angles
into the commanded `targetAngles`; while `progress < 1` re-register through
`requestAnimationFrame`, otherwise (completion) send the goal to the
backend when connected.  There is no generation check and no
`cancelAnimationFrame`: a callback only ever stops by reaching its own
completion. -/
noncomputable def stepTraj (connected : Bool) (now : ℝ) (s : ExecState)
    (tr : Traj) : ExecState :=
  let progress := min ((now - tr.startTime) / tr.duration) 1
  let eased := easeInOutCubic progress
  let s1 := { s with targetAngles := lerpJoints tr.startAngles tr.goalAngles eased }
  if progress < 1 then { s1 with active := s1.active ++ [tr] }
  else if connected then
    { s1 with dispatches := s1.dispatches ++ [.moveToAngles tr.goalAngles] }
  else s1

/-- One animation frame at wall time `now`: the browser takes the list of
registered callbacks, clears it, and runs them in registration order; each
may re-register itself for the next frame. -/
noncomputable def tick (connected : Bool) (now : ℝ) (s : ExecState) : ExecState :=
  (s.active).foldl (stepTraj connected now) { s with active := [] }

/-- Source `updateRobotJoints(angles, duration)` (lines 1501-1539): gate the goal
through `getSafeAngles` (a rejection only logs); on success capture the
current commanded angles and start a new `interpolate` callback.  The
already-registered callbacks are left untouched. -/
noncomputable def updateRobotJoints (angles : JointVec) (duration now : ℝ)
    (s : ExecState) : ExecState :=
  match getSafeAngles angles with
  | none => { s with log := s.log ++ [safetyWarnLog ("手动控制")] }
  | some (_, rad) =>
    { s with active := s.active ++ [⟨s.targetAngles, rad, now, duration⟩] }

lemma stepTraj_dispatches_mono (c : Bool) (now : ℝ) (s : ExecState)
    (tr : Traj) (d : Dispatch) (h : d ∈ s.dispatches) :
    d ∈ (stepTraj c now s tr).dispatches := by
  simp only [stepTraj]
  split_ifs
  · exact h
  · exact List.mem_append_left _ h
  · exact h

/-- Starting a new single-segment run while one is in flight appends a new
callback whose start is the current commanded angles, but does not remove
the old one; when the old trajectory's duration has elapsed, a tick still
dispatches the OLD goal to the backend. -/
lemma exec_overwrite_keeps_old (s : ExecState) (tr : Traj)
    (goal deg rad : JointVec) (dur now now2 : ℝ)
    (hactive : s.active = [tr])
    (hsafe : getSafeAngles goal = some (deg, rad))
    (hdur : 0 < tr.duration)
    (hdone : tr.startTime + tr.duration ≤ now2) :
    (updateRobotJoints goal dur now s).active =
      [tr, ⟨s.targetAngles, rad, now, dur⟩] ∧
    Dispatch.moveToAngles tr.goalAngles ∈
      (tick true now2 (updateRobotJoints goal dur now s)).dispatches := by
  have e : updateRobotJoints goal dur now s =
      { s with active := s.active ++ [⟨s.targetAngles, rad, now, dur⟩] } := by
    unfold updateRobotJoints
    rw [hsafe]
  rw [e, hactive]
  refine ⟨rfl, ?_⟩
  unfold tick
  show Dispatch.moveToAngles tr.goalAngles ∈
    (stepTraj true now2 (stepTraj true now2
      { targetAngles := s.targetAngles, active := [], dispatches := s.dispatches
        log := s.log } tr)
      ⟨s.targetAngles, rad, now, dur⟩).dispatches
  apply stepTraj_dispatches_mono
  have hprog : min ((now2 - tr.startTime) / tr.duration) 1 = 1 :=
    min_eq_right ((one_le_div hdur).mpr (by linarith))
  simp only [stepTraj, hprog]
  rw [if_pos trivial, if_neg (lt_irrefl (1 : ℝ))]
  exact List.mem_append_right _ (List.mem_singleton_self _)

/-- C9 amended: at most one trajectory is *supposed* to be active, but
starting a new single-segment run (`updateRobotJoints`) while one is in
flight does NOT cancel the old one.  The new callback's start is the
current (possibly mid-flight) commanded `targetAngles` (continuity holds),
yet the old callback stays registered alongside the new one, keeps writing
the commanded value each frame until its own duration elapses, and on its
completion the OLD goal is still dispatched to hardware — there is no
last-writer-wins supersession and no queue, just concurrent callbacks. -/
theorem updateRobotJoints_no_cancellation (s : ExecState) (tr : Traj)
    (goal deg rad : JointVec) (dur now now2 : ℝ)
    (hactive : s.active = [tr])
    (hsafe : getSafeAngles goal = some (deg, rad))
    (hdur : 0 < tr.duration)
    (hdone : tr.startTime + tr.duration ≤ now2) :
    (updateRobotJoints goal dur now s).active =
      [tr, ⟨s.targetAngles, rad, now, dur⟩] ∧
    Dispatch.moveToAngles tr.goalAngles ∈
      (tick true now2 (updateRobotJoints goal dur now s)).dispatches :=
  exec_overwrite_keeps_old s tr goal deg rad dur now now2 hactive hsafe hdur hdone

/-- The in-flight trajectory of the C9 scenario: commanded from the home
pose toward the all-ones radian goal over 100 ms starting at t = 0. -/
noncomputable def oldTraj : Traj :=
  { startAngles := ⟨0, 0, 0, 0, 0, 0⟩, goalAngles := ⟨1, 1, 1, 1, 1, 1⟩
    startTime := 0, duration := 100 }

/-- The executor state of the C9 scenario, mid-flight at t = 50. -/
noncomputable def execState0 : ExecState :=
  { targetAngles := ⟨0.2, 0, 0, 0, 0, 0⟩, active := [oldTraj]
    dispatches := [], log := [] }

/-- C9 counterexample: starting a new run toward the safe pose
`(10°, 0, 0, 0, 0, 0)` at t = 50 while `oldTraj` is in flight leaves the
old callback registered (both are active), and at t = 100 the tick still
dispatches the OLD goal to the backend — the claim that the old
trajectory's interpolation stops driving the commanded value and that its
goal is discarded is false on this input. -/
theorem updateRobotJoints_overwrite_counterexample :
    (updateRobotJoints (JointVec.mk 10 0 0 0 0 0) 100 50 execState0).active =
      [oldTraj, ⟨execState0.targetAngles,
        radOf (JointVec.mk 10 0 0 0 0 0), 50, 100⟩] ∧
    Dispatch.moveToAngles oldTraj.goalAngles ∈
      (tick true 100
        (updateRobotJoints (JointVec.mk 10 0 0 0 0 0) 100 50 execState0)).dispatches :=
  exec_overwrite_keeps_old execState0 oldTraj (JointVec.mk 10 0 0 0 0 0)
    (JointVec.mk 10 0 0 0 0 0) (radOf (JointVec.mk 10 0 0 0 0 0)) 100 50 100
    rfl (getSafeAngles_yaw_only 10 (by norm_num) (by norm_num))
    (by norm_num [oldTraj]) (by norm_num [oldTraj])

/-- Witness for the amended C9, at a later frame time t = 250 and a
different new goal `(20°, 0, 0, 0, 0, 0)` started at t = 60. -/
theorem updateRobotJoints_no_cancellation_witness :
    (updateRobotJoints (JointVec.mk 20 0 0 0 0 0) 100 60 execState0).active =
      [oldTraj, ⟨execState0.targetAngles,
        radOf (JointVec.mk 20 0 0 0 0 0), 60, 100⟩] ∧
    Dispatch.moveToAngles oldTraj.goalAngles ∈
      (tick true 250
        (updateRobotJoints (JointVec.mk 20 0 0 0 0 0) 100 60 execState0)).dispatches :=
  updateRobotJoints_no_cancellation execState0 oldTraj (JointVec.mk 20 0 0 0 0 0)
    (JointVec.mk 20 0 0 0 0 0) (radOf (JointVec.mk 20 0 0 0 0 0)) 100 60 250
    rfl (getSafeAngles_yaw_only 20 (by norm_num) (by norm_num))
    (by norm_num [oldTraj]) (by norm_num [oldTraj])

end Armfi
